import Mathlib

/-!
Verification development for the CSS Scanner browser extension
(`src/content/content.js`).  The definitions below are a shallow embedding
of the content script's pure logic: JS objects holding CSS declarations
become association lists (`List (String × String)`, preserving insertion
order as JS string-keyed objects do), DOM elements become nodes of an
explicit tree, timestamps become naturals, and fallible operations return
`Except`.  Each definition is translated from the class/method of the same
name in the source file.
-/

/-- A JS object mapping CSS property names to values, in insertion order. -/
abbrev StyleMap := List (String × String)

/-! ### JS string primitives

The JS string methods the source relies on, modelled structurally over the
character list of a string. -/

/-- JS `String.prototype.trim`: strip leading and trailing whitespace. -/
def jsTrim (s : String) : String :=
  String.mk
    (((s.toList.dropWhile Char.isWhitespace).reverse.dropWhile
      Char.isWhitespace).reverse)

/-- JS `String.prototype.toLowerCase` (for the ASCII tag names in play). -/
def jsToLower (s : String) : String :=
  String.mk (s.toList.map Char.toLower)

/-- Helper for `jsSplitOnSpace`: accumulate the current field. -/
def jsSplitAux : List Char → List Char → List String
  | [], acc => [String.mk acc.reverse]
  | c :: cs, acc =>
    if c = ' ' then String.mk acc.reverse :: jsSplitAux cs []
    else jsSplitAux cs (c :: acc)

/-- JS `String.prototype.split(' ')`: split on every single space, keeping
empty fields (so `''.split(' ')` is `['']`). -/
def jsSplitOnSpace (s : String) : List String :=
  jsSplitAux s.toList []

/-- Lexicographic codepoint comparison of character lists: the order
`a.localeCompare(b)` induces on the ASCII CSS property names in play. -/
def charListLe : List Char → List Char → Bool
  | [], _ => true
  | _ :: _, [] => false
  | a :: as, b :: bs =>
    if a.toNat = b.toNat then charListLe as bs
    else a.toNat < b.toNat

/-- JS `a.localeCompare(b) <= 0` for the ASCII strings in play. -/
def jsStringLe (a b : String) : Bool :=
  charListLe a.toList b.toList

/-- The comparator of the `.sort(([a], [b]) => a.localeCompare(b))` call in
`generateCSSText` (content.js line 821): order declarations by property
name. -/
def declLe (a b : String × String) : Prop :=
  jsStringLe a.1 b.1 = true

instance : DecidableRel declLe :=
  fun a b => inferInstanceAs (Decidable (_ = true))

theorem charListLe_total : ∀ as bs : List Char,
    charListLe as bs = true ∨ charListLe bs as = true
  | [], _ => Or.inl rfl
  | _ :: _, [] => Or.inr rfl
  | a :: as, b :: bs => by
    simp only [charListLe]
    by_cases hab : a.toNat = b.toNat
    · rw [if_pos hab, if_pos hab.symm]
      exact charListLe_total as bs
    · rw [if_neg hab, if_neg (fun h => hab h.symm)]
      rcases Nat.lt_or_ge a.toNat b.toNat with h | h
      · exact Or.inl (decide_eq_true h)
      · exact Or.inr (decide_eq_true (by omega))

theorem charListLe_trans : ∀ as bs cs : List Char,
    charListLe as bs = true → charListLe bs cs = true →
    charListLe as cs = true
  | [], _, _, _, _ => rfl
  | _ :: _, [], _, h1, _ => by simp [charListLe] at h1
  | _ :: _, _ :: _, [], _, h2 => by simp [charListLe] at h2
  | a :: as, b :: bs, c :: cs, h1, h2 => by
    simp only [charListLe] at h1 h2 ⊢
    by_cases hab : a.toNat = b.toNat
    · rw [if_pos hab] at h1
      by_cases hbc : b.toNat = c.toNat
      · rw [if_pos hbc] at h2
        rw [if_pos (hab.trans hbc)]
        exact charListLe_trans as bs cs h1 h2
      · rw [if_neg hbc] at h2
        have hlt : b.toNat < c.toNat := of_decide_eq_true h2
        have hac : ¬a.toNat = c.toNat := by omega
        rw [if_neg hac]
        exact decide_eq_true (by omega)
    · rw [if_neg hab] at h1
      have hlt1 : a.toNat < b.toNat := of_decide_eq_true h1
      by_cases hbc : b.toNat = c.toNat
      · have hac : ¬a.toNat = c.toNat := by omega
        rw [if_neg hac]
        exact decide_eq_true (by omega)
      · rw [if_neg hbc] at h2
        have hlt2 : b.toNat < c.toNat := of_decide_eq_true h2
        have hac : ¬a.toNat = c.toNat := by omega
        rw [if_neg hac]
        exact decide_eq_true (by omega)

instance : IsTotal (String × String) declLe :=
  ⟨fun a b => charListLe_total a.1.toList b.1.toList⟩

instance : IsTrans (String × String) declLe :=
  ⟨fun _ _ _ h1 h2 => charListLe_trans _ _ _ h1 h2⟩

/-! ## CSSAnalyzer (content.js lines 564-703) -/

/-- The `invalidValues` array of `CSSAnalyzer.isValidCSSValue`
(content.js lines 693-696). -/
def invalidValues : List String :=
  ["auto", "normal", "none", "initial", "inherit", "unset",
   "0px", "0", "rgba(0, 0, 0, 0)", "transparent"]

/-- `CSSAnalyzer.isValidCSSValue` (content.js lines 689-702).  The JS guard
`!value || typeof value !== 'string'` rejects exactly the empty string in
this model (all values are strings). -/
def isValidCSSValue (value : String) : Bool :=
  if value = "" then false
  else !(invalidValues.contains (jsTrim value))

/-- `CSSAnalyzer.initializeCSSCategories` (content.js lines 572-582):
the seven fixed categories with their property allow-lists. -/
def cssCategories : List (String × List String) :=
  [("layout", ["display", "position", "top", "right", "bottom", "left",
               "float", "clear", "z-index"]),
   ("boxModel", ["width", "height", "min-width", "min-height", "max-width",
                 "max-height", "margin", "margin-top", "margin-right",
                 "margin-bottom", "margin-left", "padding", "padding-top",
                 "padding-right", "padding-bottom", "padding-left"]),
   ("border", ["border", "border-width", "border-style", "border-color",
               "border-radius", "border-top", "border-right", "border-bottom",
               "border-left"]),
   ("background", ["background", "background-color", "background-image",
                   "background-size", "background-position",
                   "background-repeat"]),
   ("typography", ["font-family", "font-size", "font-weight", "line-height",
                   "color", "text-align", "text-decoration",
                   "letter-spacing"]),
   ("flexGrid", ["flex", "flex-direction", "justify-content", "align-items",
                 "grid", "grid-template-columns", "grid-template-rows",
                 "gap"]),
   ("effects", ["opacity", "transform", "transition", "animation",
                "box-shadow", "filter"])]

/-- The inner loop of `CSSAnalyzer.categorizeStyles`: collect the properties
of one category allow-list whose value in the computed snapshot is truthy
and passes `isValidCSSValue` (content.js lines 671-676). -/
def categoryData (computedStyle : StyleMap) (properties : List String) : StyleMap :=
  properties.filterMap fun prop =>
    match computedStyle.lookup prop with
    | some value => if value ≠ "" && isValidCSSValue value then some (prop, value) else none
    | none => none

/-- `CSSAnalyzer.categorizeStyles` (content.js lines 664-687): a category is
kept only when at least one property survived the filter. -/
def categorizeStyles (computedStyle : StyleMap) : List (String × StyleMap) :=
  cssCategories.filterMap fun cat =>
    let data := categoryData computedStyle cat.2
    if data ≠ [] then some (cat.1, data) else none

/-! ## ClipboardManager (content.js lines 705-885) -/

/-- The filtered and sorted declaration list built inside
`ClipboardManager.generateCSSText` (content.js lines 811-821): the `.filter`
predicate rejects falsy values, `none`, `auto`, `normal`, `initial`, `0px`
and `rgba(0, 0, 0, 0)` (and no other values), and `.sort` orders by
property name via `localeCompare`, modelled as the string order. -/
def cssDeclarations (styles : StyleMap) : List (String × String) :=
  List.insertionSort declLe
    (styles.filter fun kv =>
      kv.2 ≠ "" && kv.2 ≠ "none" && kv.2 ≠ "auto" && kv.2 ≠ "normal" &&
      kv.2 ≠ "initial" && kv.2 ≠ "0px" && kv.2 ≠ "rgba(0, 0, 0, 0)")

/-- `ClipboardManager.generateCSSText` (content.js lines 805-834).
`selector = none` models the JS default `null`; a present but empty
selector string is falsy in the JS conditional, giving the bare block. -/
def generateCSSText (styles : StyleMap) (selector : Option String) : String :=
  if styles = [] then ""
  else
    let cssLines := (cssDeclarations styles).map fun kv =>
      "  " ++ kv.1 ++ ": " ++ kv.2 ++ ";"
    if cssLines = [] then ""
    else
      let body := "\x7b\n" ++ String.intercalate "\n" cssLines ++ "\n\x7d"
      match selector with
      | some sel => if sel ≠ "" then sel ++ " " ++ body else body
      | none => body

/-- The tag/class/id/selector record of an Element Inspection Result
(`cssInfo.element`, content.js lines 595-600). -/
structure ElementInfo where
  tagName : String
  className : String
  id : String
  selector : String
deriving DecidableEq, Repr

/-- An Element Inspection Result: the aggregate returned by
`CSSAnalyzer.extractCSSInfo` and consumed by `ClipboardManager`
(content.js lines 594-604). -/
structure ElementData where
  element : ElementInfo
  computed : StyleMap
  inlineStyles : StyleMap
  categorized : List (String × StyleMap)
deriving DecidableEq, Repr

/-- One `Object.assign(allStyles, categoryStyles)` step: overriding keys keep
their original position, new keys are appended (JS object key order). -/
def objAssign (base extra : StyleMap) : StyleMap :=
  extra.foldl (fun acc kv =>
    if acc.any (fun e => e.1 = kv.1) then
      acc.map (fun e => if e.1 = kv.1 then kv else e)
    else acc ++ [kv]) base

/-- The merge loop of `ClipboardManager.generateAllCSSText`
(content.js lines 770-776): flatten every category's styles into one map. -/
def objectAssignAll (categorized : List (String × StyleMap)) : StyleMap :=
  categorized.foldl (fun allStyles cat => objAssign allStyles cat.2) []

/-- `ClipboardManager.generateAllCSSText` (content.js lines 764-785). -/
def generateAllCSSText (elementData : ElementData) (selector : String) : String :=
  if elementData.computed = [] then
    generateCSSText (objectAssignAll elementData.categorized) (some selector)
  else
    generateCSSText elementData.computed (some selector)

/-- `ClipboardManager.generateInlineCSSText` (content.js lines 787-803):
throws (modelled as `Except.error`) when the result has no inline styles. -/
def generateInlineCSSText (elementData : ElementData) (selector : String) :
    Except String String :=
  if elementData.inlineStyles = [] then Except.error "No inline styles found."
  else Except.ok (generateCSSText elementData.inlineStyles (some selector))

/-- `ClipboardManager.isValidCopyText` (content.js lines 836-845). -/
def isValidCopyText (textToCopy selector : String) : Bool :=
  textToCopy ≠ "" && jsTrim textToCopy ≠ "" && textToCopy ≠ "\x7b\x7d" &&
  textToCopy ≠ selector ++ " \x7b\n\n\x7d"

/-- The `copyTypeNames` table of `ClipboardManager` (content.js lines
710-715), with the `|| 'Content'` fallback of line 754. -/
def copyTypeNames (ty : String) : String :=
  if ty = "selector" then "Selector"
  else if ty = "all" then "All CSS"
  else if ty = "computed" then "Computed styles"
  else if ty = "inline" then "Inline styles"
  else "Content"

/-- `ClipboardManager.copyToClipboard` (content.js lines 718-762).
`platformCopyOk` abstracts whether `performCopy` succeeds.  The first
component is the rejected error or the resolved copied-type label; the
second is the text handed to `performCopy`, or `none` when no clipboard
write was ever attempted. -/
def copyToClipboard (elementData : Option ElementData) (ty : String)
    (platformCopyOk : Bool) : Except String String × Option String :=
  match elementData with
  | none => (Except.error "No data available.", none)
  | some d =>
    let selector := d.element.selector
    let textResult : Except String String :=
      if ty = "selector" then Except.ok selector
      else if ty = "all" || ty = "computed" then
        Except.ok (generateAllCSSText d selector)
      else if ty = "inline" then generateInlineCSSText d selector
      else Except.error "Unknown copy type."
    match textResult with
    | Except.error e => (Except.error e, none)
    | Except.ok textToCopy =>
      if !(isValidCopyText textToCopy selector) then
        (Except.error "No CSS content to copy.", none)
      else if platformCopyOk then (Except.ok (copyTypeNames ty), some textToCopy)
      else (Except.error "Copy failed.", some textToCopy)

/-! ## StyleCache: computed-style memoization (content.js lines 365-505) -/

/-- `this.maxCacheAge` (content.js line 370). -/
def maxCacheAge : Nat := 30000

/-- One cache slot of `StyleCache.cache`: the snapshot plus its creation
timestamp (content.js lines 380-383). -/
structure CacheEntry where
  style : StyleMap
  timestamp : Nat
deriving DecidableEq, Repr

/-- `StyleCache.getComputedStyle` (content.js lines 375-396) for a single
element, with the self-recursion made explicit through fuel.  `cache` is the
entry currently stored for the element, `now` the value of `Date.now()`
during the call, and `platform` the snapshot a fresh platform read would
produce.  Returns the snapshot handed back, the entry left in the cache,
and whether the platform was queried. -/
def getComputedStyleFuel (fuel : Nat) (cache : Option CacheEntry) (now : Nat)
    (platform : StyleMap) : Option (StyleMap × CacheEntry × Bool) :=
  match fuel with
  | 0 => none
  | fuel + 1 =>
    let (entry, queried) :=
      match cache with
      | none => (CacheEntry.mk platform now, true)
      | some e => (e, false)
    if maxCacheAge < now - entry.timestamp then
      match getComputedStyleFuel fuel none now platform with
      | some (s, e2, q2) => some (s, e2, queried || q2)
      | none => none
    else some (entry.style, entry, queried)

/-- `StyleCache.getComputedStyle` as a total function: the recursion of the
source bottoms out after at most one recomputation (a freshly stored entry
has age zero), so fuel 2 always suffices; the default is unreachable. -/
def StyleCache.getComputedStyle (cache : Option CacheEntry) (now : Nat)
    (platform : StyleMap) : StyleMap × CacheEntry × Bool :=
  (getComputedStyleFuel 2 cache now platform).getD (platform, ⟨platform, now⟩, true)

/-! ## DOM model and StyleCache selector generation (content.js lines 425-487)

The document is modelled as the `body` element's tree (selector matching in
this model counts over body and its descendants).  An element handle is the
list of child indices leading from body to the node; `some []` is the body
itself and `none` is a JS `null`/`undefined` argument. -/

/-- A DOM element: tag name (as `element.tagName`, i.e. uppercase in HTML
documents), `id`, `className`, and element children in order. -/
inductive DomTree where
  | node (tagName : String) (id : String) (className : String)
      (children : List DomTree)

def DomTree.tagName : DomTree → String
  | .node t _ _ _ => t

def DomTree.id : DomTree → String
  | .node _ i _ _ => i

def DomTree.className : DomTree → String
  | .node _ _ c _ => c

def DomTree.children : DomTree → List DomTree
  | .node _ _ _ cs => cs

/-- Resolve an element handle: follow the child indices from the body. -/
def getNode : DomTree → List Nat → Option DomTree
  | t, [] => some t
  | t, i :: rest =>
    match t.children[i]? with
    | some c => getNode c rest
    | none => none

/-- `element.className.split(' ')` (content.js line 446). -/
def classTokens (className : String) : List String :=
  jsSplitOnSpace className

/-- `cls.includes('css-scanner')` (content.js line 447): substring test. -/
def containsScannerMark (cls : String) : Bool :=
  (List.range (cls.toList.length + 1)).any fun i =>
    "css-scanner".toList.isPrefixOf (cls.toList.drop i)

/-- The class list actually used for the compound selector (content.js lines
446-448): split on spaces, drop empty and internal (`css-scanner`) tokens,
keep the first 3. -/
def usableClasses (el : DomTree) : List String :=
  ((classTokens el.className).filter
    (fun cls => cls ≠ "" && !(containsScannerMark cls))).take 3

/-- Whether one element matches the compound class selector
`'.' + classes.join('.')`: it must carry every listed class. -/
def nodeMatchesClasses (classes : List String) (t : DomTree) : Bool :=
  classes.all fun c => (classTokens t.className).contains c

mutual
/-- `document.querySelectorAll(classSelector).length` (content.js line 453)
for a compound class selector: matching elements in the whole document. -/
def countMatches (classes : List String) : DomTree → Nat
  | .node t i c cs =>
    (if nodeMatchesClasses classes (.node t i c cs) then 1 else 0) +
      countMatchesList classes cs
def countMatchesList (classes : List String) : List DomTree → Nat
  | [] => 0
  | t :: ts => countMatches classes t + countMatchesList classes ts
end

/-- The ancestor-path loop of `generateOptimizedSelector` (content.js lines
463-481), with the loop counter `depth < 3` turned into fuel.  The loop runs
while the current element is not the body (`path ≠ []`); each iteration
prepends `tagName.toLowerCase()`, suffixed with `:nth-child(index + 1)` when
`1 < siblings.length ≤ 10` (the sibling index of a valid handle is its last
path component), so the outermost ancestor ends up first. -/
def buildPathSteps (body : DomTree) : Nat → List Nat → List String
  | 0, _ => []
  | fuel + 1, path =>
    if path = [] then []
    else
      match getNode body path with
      | none => []
      | some current =>
        let siblings :=
          match getNode body path.dropLast with
          | some parent => parent.children
          | none => []
        let sel :=
          if 1 < siblings.length && siblings.length ≤ 10 then
            jsToLower current.tagName ++ ":nth-child(" ++
              toString (path.getLast! + 1) ++ ")"
          else jsToLower current.tagName
        buildPathSteps body fuel path.dropLast ++ [sel]

/-- `StyleCache.generateOptimizedSelector` (content.js lines 437-487).
A handle that no longer resolves makes the wrapped body throw on property
access, which the `safeWrapper` turns into `'unknown'`. -/
def generateOptimizedSelector (body : DomTree) (element : Option (List Nat)) :
    String :=
  match element with
  | none => "body"
  | some path =>
    if path = [] then "body"
    else
      match getNode body path with
      | none => "unknown"
      | some el =>
        if el.id ≠ "" then "#" ++ el.id
        else
          let classSelResult : Option String :=
            if el.className ≠ "" then
              let classes := usableClasses el
              if classes ≠ [] then
                if countMatches classes body ≤ 5 then
                  some ("." ++ String.intercalate "." classes)
                else none
              else none
            else none
          match classSelResult with
          | some s => s
          | none =>
            let joined := String.intercalate " > " (buildPathSteps body 3 path)
            if joined ≠ "" then joined
            else if jsToLower el.tagName ≠ "" then jsToLower el.tagName
            else "unknown"

/-- `WeakMap.prototype.set` on the selector cache: storing under a non-object
key (a `null`/`undefined` element) throws a `TypeError`. -/
def weakMapSet (cache : List (List Nat × String)) (key : Option (List Nat))
    (v : String) : Except Unit (List (List Nat × String)) :=
  match key with
  | none => Except.error ()
  | some k => Except.ok ((k, v) :: cache)

/-- `WeakMap.prototype.has`: a non-object key is never present. -/
def weakMapHas (cache : List (List Nat × String)) : Option (List Nat) → Bool
  | none => false
  | some k => (cache.lookup k).isSome

/-- `WeakMap.prototype.get`. -/
def weakMapGet (cache : List (List Nat × String)) : Option (List Nat) →
    Option String
  | none => none
  | some k => cache.lookup k

/-- `StyleCache.getSelector` (content.js lines 425-435): fill the selector
cache on a miss and read the stored value back.  The `safeWrapper.execute`
around the body turns any throw — in particular the `TypeError` from caching
under a `null` key — into the `'unknown'` fallback.  Returns the selector
and the cache left behind. -/
def getSelector (body : DomTree) (cache : List (List Nat × String))
    (element : Option (List Nat)) : String × List (List Nat × String) :=
  let attempt : Except Unit (String × List (List Nat × String)) := do
    let cache2 ←
      if weakMapHas cache element then pure cache
      else weakMapSet cache element (generateOptimizedSelector body element)
    pure ((weakMapGet cache2 element).getD "unknown", cache2)
  match attempt with
  | Except.ok r => r
  | Except.error _ => ("unknown", cache)

/-! ## CSSAnalyzer.extractCSSInfo (content.js lines 584-625) -/

/-- The raw DOM properties `extractCSSInfo` reads off its argument. -/
structure RawElement where
  tagName : String
  className : String
  id : String
deriving DecidableEq, Repr

/-- The degraded fallback record of `extractCSSInfo` (content.js lines
609-622): built from `element?.tagName?.toLowerCase() || 'unknown'`,
`element?.className || ''`, `element?.id || ''`, selector `'unknown'` and
empty style maps. -/
def degradedResult (element : Option RawElement) : ElementData :=
  { element := { tagName :=
                   match element with
                   | some el =>
                     if jsToLower el.tagName ≠ "" then jsToLower el.tagName
                     else "unknown"
                   | none => "unknown",
                 className := (element.map RawElement.className).getD "",
                 id := (element.map RawElement.id).getD "",
                 selector := "unknown" },
    computed := [], inlineStyles := [], categorized := [] }

/-- `CSSAnalyzer.extractCSSInfo` (content.js lines 584-625).  The calls it
makes — the cached computed-style read, selector generation, inline-style
extraction and categorization — are passed in as possibly-throwing
operations (`Except`, with thrown exceptions propagating outwards); a `null`
element makes the body itself throw.  Any throw is caught by the
surrounding `safeWrapper.execute`, and the `!result.success` branch returns
the degraded record. -/
def extractCSSInfo (element : Option RawElement)
    (getComputedStyleOp : Except Unit StyleMap)
    (getSelectorOp : Except Unit String)
    (extractInlineOp : Except Unit StyleMap)
    (categorizeOp : StyleMap → Except Unit (List (String × StyleMap))) :
    ElementData :=
  let attempt : Except Unit ElementData :=
    match element with
    | none => Except.error ()
    | some el =>
      match getComputedStyleOp with
      | Except.error e => Except.error e
      | Except.ok computedStyle =>
        match getSelectorOp with
        | Except.error e => Except.error e
        | Except.ok selector =>
          match extractInlineOp with
          | Except.error e => Except.error e
          | Except.ok inlineStyle =>
            match categorizeOp computedStyle with
            | Except.error e => Except.error e
            | Except.ok categorized =>
              Except.ok { element := { tagName := jsToLower el.tagName,
                                       className := el.className,
                                       id := el.id,
                                       selector := selector },
                          computed := computedStyle,
                          inlineStyles := inlineStyle,
                          categorized := categorized }
  match attempt with
  | Except.ok cssInfo => cssInfo
  | Except.error _ => degradedResult element

/-! ## PopupManager positioning and pin state (content.js lines 950-1255) -/

/-- A screen position in CSS pixels. -/
structure Pos where
  x : Int
  y : Int
deriving DecidableEq, Repr

/-- The four candidate placements of `updatePopupPosition` (content.js lines
1139-1144): cursor plus a 20px offset towards each quadrant. -/
def candidatePositions (mx my popupWidth popupHeight : Int) : List Pos :=
  [⟨mx + 20, my + 20⟩,
   ⟨mx - popupWidth - 20, my + 20⟩,
   ⟨mx + 20, my - popupHeight - 20⟩,
   ⟨mx - popupWidth - 20, my - popupHeight - 20⟩]

/-- The fit test of `updatePopupPosition` (content.js lines 1147-1151): the
popup's full box must stay 10px inside the viewport. -/
def fitsViewport (p : Pos) (popupWidth popupHeight vw vh : Int) : Bool :=
  10 ≤ p.x && 10 ≤ p.y &&
  p.x + popupWidth ≤ vw - 10 && p.y + popupHeight ≤ vh - 10

/-- The position chosen by `PopupManager.updatePopupPosition` (content.js
lines 1139-1154): the first fitting candidate, or `positions[0]`, then both
coordinates clamped by `Math.max(10, Math.min(-, viewport - size - 10))`. -/
def bestPosition (mx my popupWidth popupHeight vw vh : Int) : Pos :=
  let positions := candidatePositions mx my popupWidth popupHeight
  let best := (positions.find? fun p =>
    fitsViewport p popupWidth popupHeight vw vh).getD ⟨mx + 20, my + 20⟩
  ⟨max 10 (min best.x (vw - popupWidth - 10)),
   max 10 (min best.y (vh - popupHeight - 10))⟩

/-- The `PopupManager` state the move/pin flow touches: the rendered popup
position (`none` when no popup is shown), `isPinned` and `pinnedPosition`. -/
structure PopupState where
  popup : Option Pos
  isPinned : Bool
  pinnedPosition : Option Pos
deriving DecidableEq, Repr

/-- `PopupManager.updatePopupPosition` (content.js lines 1130-1161): bail out
when no popup is shown or the popup is pinned, else move the popup to
`bestPosition`.  Popup size and viewport are parameters of the model. -/
def updatePopupPosition (st : PopupState) (mousePosition : Pos)
    (popupWidth popupHeight vw vh : Int) : PopupState :=
  match st.popup with
  | none => st
  | some _ =>
    if st.isPinned then st
    else { st with popup := some (bestPosition mousePosition.x mousePosition.y
                                    popupWidth popupHeight vw vh) }

/-- `PopupManager.pinPopup` (content.js lines 1163-1176): set the flag and
capture the current rendered position when a popup exists. -/
def pinPopup (st : PopupState) : PopupState :=
  let st := { st with isPinned := true }
  match st.popup with
  | some p => { st with pinnedPosition := some p }
  | none => st

/-- `PopupManager.unpinPopup` (content.js lines 1178-1188). -/
def unpinPopup (st : PopupState) : PopupState :=
  { st with isPinned := false, pinnedPosition := none }

/-- A pointer-move event as `CSSScanner.handleMouseMove` sees it: the tracked
cursor position and whether `event.target` is part of the popup. -/
structure MoveEvent where
  mousePosition : Pos
  targetIsPopup : Bool
deriving DecidableEq, Repr

/-- `CSSScanner.handleMouseMove` (content.js lines 1677-1685): while
scanning, reposition the popup only when it is shown, not pinned, and the
cursor is not over the popup itself. -/
def handleMouseMove (isScanning : Bool) (st : PopupState) (ev : MoveEvent)
    (popupWidth popupHeight vw vh : Int) : PopupState :=
  if !isScanning then st
  else if st.popup.isSome && !st.isPinned && !ev.targetIsPopup then
    updatePopupPosition st ev.mousePosition popupWidth popupHeight vw vh
  else st

/-! ## Spec-side definitions

These follow the words of the specification, to be compared with the
source-derived functions above. -/

/-- The chain of up to `fuel` strict ancestors-or-self handles of an element,
innermost first, stopping at the body: the handles the spec's "up to 3
ancestor steps" talks about. -/
def upChain : Nat → List Nat → List (List Nat)
  | 0, _ => []
  | fuel + 1, path =>
    if path = [] then [] else path :: upChain fuel path.dropLast

/-- One ancestor step as the spec describes it: the lowercase tag name,
suffixed with `:nth-child(n)` (`n` the 1-based sibling index) exactly when
the parent has between 2 and 10 children. -/
def specStep (body : DomTree) (p : List Nat) : String :=
  match getNode body p with
  | none => ""
  | some cur =>
    let siblingCount :=
      match getNode body p.dropLast with
      | some parent => parent.children.length
      | none => 0
    if 2 ≤ siblingCount ∧ siblingCount ≤ 10 then
      jsToLower cur.tagName ++ ":nth-child(" ++ toString (p.getLast! + 1) ++ ")"
    else jsToLower cur.tagName

/-- Steps 4-5 of the spec's selector algorithm: the ancestor steps joined
with `" > "` (outermost first), else the lowercase tag name, else the
literal `'unknown'`. -/
def pathFallback (body : DomTree) (path : List Nat) (el : DomTree) : String :=
  let joined := String.intercalate " > " (((upChain 3 path).map
    (specStep body)).reverse)
  if joined ≠ "" then joined
  else if jsToLower el.tagName ≠ "" then jsToLower el.tagName
  else "unknown"

/-! ## Sample document used by concrete witnesses -/

/-- A small document: `body > (div > span, p#hero)`. -/
def sampleBody : DomTree :=
  .node "BODY" "" "" [
    .node "DIV" "" "" [.node "SPAN" "" "" []],
    .node "P" "hero" "" []]

/-! ## Claim theorems -/

/-- C3: a snapshot stored at time `t1` is returned unchanged, without a
platform query, by a second `getComputedStyle` call at any `t2` within the
30-second max age; an entry older than the max age is never returned — it is
discarded and a fresh platform snapshot is stored and returned. -/
theorem c3_snapshot_cache (t1 t2 : Nat) (p1 p2 : StyleMap) :
    StyleCache.getComputedStyle none t1 p1 = (p1, ⟨p1, t1⟩, true) ∧
    StyleCache.getComputedStyle (some ⟨p1, t1⟩) t2 p2 =
      (if t2 - t1 ≤ maxCacheAge then (p1, ⟨p1, t1⟩, false)
       else (p2, ⟨p2, t2⟩, true)) := by
  constructor
  · simp [StyleCache.getComputedStyle, getComputedStyleFuel]
  · by_cases h : t2 - t1 ≤ maxCacheAge
    · simp [StyleCache.getComputedStyle, getComputedStyleFuel, h,
        Nat.not_lt.mpr h]
    · simp [StyleCache.getComputedStyle, getComputedStyleFuel, h,
        Nat.lt_of_not_le h]

/-- C4: copying in `inline` mode from a result with no inline styles rejects
with the `'No inline styles found.'` error and never reaches `performCopy`. -/
theorem c4_inline_empty (d : ElementData) (platformCopyOk : Bool)
    (h : d.inlineStyles = []) :
    copyToClipboard (some d) "inline" platformCopyOk =
      (Except.error "No inline styles found.", none) := by
  simp [copyToClipboard, generateInlineCSSText, h]

/-- Witness for `c4_inline_empty` at a concrete inspection result. -/
theorem c4_inline_empty_witness :
    copyToClipboard (some ⟨⟨"div", "", "", "div"⟩, [("color", "red")], [], []⟩)
      "inline" true = (Except.error "No inline styles found.", none) :=
  c4_inline_empty ⟨⟨"div", "", "", "div"⟩, [("color", "red")], [], []⟩ true rfl

/-- C10: any copy mode outside `selector`/`all`/`computed`/`inline` rejects
with the `'Unknown copy type.'` error and no clipboard write is attempted. -/
theorem c10_unknown_copy_type (d : ElementData) (platformCopyOk : Bool)
    (ty : String) (h1 : ty ≠ "selector") (h2 : ty ≠ "all")
    (h3 : ty ≠ "computed") (h4 : ty ≠ "inline") :
    copyToClipboard (some d) ty platformCopyOk =
      (Except.error "Unknown copy type.", none) := by
  simp [copyToClipboard, h1, h2, h3, h4]

/-- Witness for `c10_unknown_copy_type` at the concrete mode `"styles"`. -/
theorem c10_unknown_copy_type_witness :
    copyToClipboard (some ⟨⟨"div", "", "", "div"⟩, [("color", "red")], [], []⟩)
      "styles" true = (Except.error "Unknown copy type.", none) :=
  c10_unknown_copy_type ⟨⟨"div", "", "", "div"⟩, [("color", "red")], [], []⟩
    true "styles" (by decide) (by decide) (by decide) (by decide)

/-- C9 counterexample: for a `null` element, `getSelector` returns
`'unknown'`, not `'body'` — caching the selector under a `null` key throws a
`TypeError` inside the wrapped body, so the `safeWrapper` fallback fires. -/
theorem c9_counterexample :
    (getSelector sampleBody [] none).1 = "unknown" ∧
    (getSelector sampleBody [] none).1 ≠ "body" := by
  constructor
  · rfl
  · intro h
    exact absurd h (by decide)

/-- C9 amended: `generateOptimizedSelector` returns `'body'` for the body
element and also for a `null`/`undefined` argument, but `getSelector` maps a
`null` element to `'unknown'` (the weak-map store throws) and leaves the
cache untouched. -/
theorem c9_amended (body : DomTree) (cache : List (List Nat × String)) :
    generateOptimizedSelector body none = "body" ∧
    generateOptimizedSelector body (some []) = "body" ∧
    getSelector body cache none = ("unknown", cache) := by
  refine ⟨rfl, rfl, ?_⟩
  simp [getSelector, weakMapHas, weakMapSet]

/-- The set of values the `generateCSSText` filter actually rejects
(content.js lines 812-820): it omits `inherit`, `unset`, `0` and
`transparent` from the analyzer's uninteresting-value set. -/
def generateCSSTextFiltered : List String :=
  ["none", "auto", "normal", "initial", "0px", "rgba(0, 0, 0, 0)"]

/-- C1 counterexample: `transparent` is in the fixed uninteresting-value set,
yet a `color: transparent` declaration survives `generateCSSText` and appears
verbatim in the copy-formatted CSS text. -/
theorem c1_counterexample :
    ("transparent" : String) ∈ invalidValues ∧
    cssDeclarations [("color", "transparent")] = [("color", "transparent")] ∧
    generateCSSText [("color", "transparent")] (some "div") =
      "div \x7b\n  color: transparent;\n\x7d" := by
  refine ⟨by decide, by decide, by decide⟩

/-- A value from the fixed uninteresting set is always rejected by
`isValidCSSValue` (each member is its own `trim`). -/
theorem mem_invalidValues_not_valid (v : String) (hv : v ∈ invalidValues) :
    isValidCSSValue v = false := by
  fin_cases hv <;> decide

/-- Every value kept by the per-category filter passed `isValidCSSValue`. -/
theorem categoryData_mem_valid (computedStyle : StyleMap) (props : List String)
    (p v : String) (h : (p, v) ∈ categoryData computedStyle props) :
    isValidCSSValue v = true := by
  obtain ⟨prop, hprop, heq⟩ := List.mem_filterMap.mp h
  rcases hlook : computedStyle.lookup prop with _ | value
  · rw [hlook] at heq; simp at heq
  · rw [hlook] at heq
    dsimp only at heq
    by_cases hval : (decide (value ≠ "") && isValidCSSValue value) = true
    · rw [if_pos hval] at heq
      obtain ⟨rfl, rfl⟩ : prop = p ∧ value = v := by
        simpa [Prod.ext_iff] using heq
      exact (Bool.and_eq_true _ _).mp hval |>.2
    · rw [if_neg hval] at heq; simp at heq

/-- C1 amended: values of the uninteresting set never appear in any category
of `categorizeStyles`; the `generateCSSText` declarations, however, are only
guaranteed free of the six values its own filter checks (`none`, `auto`,
`normal`, `initial`, `0px`, `rgba(0, 0, 0, 0)`), not of `inherit`, `unset`,
`0` or `transparent`. -/
theorem c1_amended (computedStyle styles : StyleMap) (cat : String)
    (data : StyleMap) (p v q w : String)
    (hcat : (cat, data) ∈ categorizeStyles computedStyle)
    (hpv : (p, v) ∈ data)
    (hqw : (q, w) ∈ cssDeclarations styles) :
    v ∉ invalidValues ∧ w ∉ generateCSSTextFiltered := by
  constructor
  · obtain ⟨catEntry, hmem, hsome⟩ := List.mem_filterMap.mp hcat
    dsimp only at hsome
    split at hsome
    · obtain ⟨rfl, rfl⟩ :
          catEntry.1 = cat ∧ categoryData computedStyle catEntry.2 = data := by
        simpa [Prod.ext_iff] using hsome
      have hvalid := categoryData_mem_valid computedStyle catEntry.2 p v hpv
      intro hvmem
      rw [mem_invalidValues_not_valid v hvmem] at hvalid
      exact absurd hvalid (by decide)
    · simp at hsome
  · have hmem2 : (q, w) ∈ styles.filter (fun kv =>
        kv.2 ≠ "" && kv.2 ≠ "none" && kv.2 ≠ "auto" && kv.2 ≠ "normal" &&
        kv.2 ≠ "initial" && kv.2 ≠ "0px" && kv.2 ≠ "rgba(0, 0, 0, 0)") :=
      (List.perm_insertionSort _ _).mem_iff.mp hqw
    have hpred := List.of_mem_filter hmem2
    intro hw
    fin_cases hw <;> simp_all

/-- Witness for `c1_amended` at a concrete snapshot and style map. -/
theorem c1_amended_witness :
    ("flex" : String) ∉ invalidValues ∧
    ("red" : String) ∉ generateCSSTextFiltered :=
  c1_amended [("display", "flex")] [("color", "red")] "layout"
    [("display", "flex")] "display" "flex" "color" "red"
    (by decide) (by decide) (by decide)

/-- C5 counterexample: with a 380x380 popup in a 100x100 viewport and the
cursor at (50, 50), all four offset-quadrant candidates fail the margin fit
test, yet the chosen x-coordinate (10) does not lie in
`[10, W - w - 10] = [10, -290]`, which is empty. -/
theorem c5_counterexample :
    ((candidatePositions 50 50 380 380).all
      (fun p => !(fitsViewport p 380 380 100 100))) = true ∧
    ¬((bestPosition 50 50 380 380 100 100).x ≤ 100 - 380 - 10) := by
  refine ⟨by decide, by decide⟩

/-- C5 amended: whenever all four 20px-offset candidates fail the 10px-margin
fit test and the popup plus margins actually fits in the viewport
(`w + 20 ≤ W` and `h + 20 ≤ H`), the chosen position is the first candidate
clamped, and its coordinates lie in `[10, W - w - 10] x [10, H - h - 10]`. -/
theorem c5_amended (mx my w h vw vh : Int)
    (hall : ∀ p ∈ candidatePositions mx my w h, fitsViewport p w h vw vh = false)
    (hw : w + 20 ≤ vw) (hh : h + 20 ≤ vh) :
    bestPosition mx my w h vw vh =
      ⟨max 10 (min (mx + 20) (vw - w - 10)),
       max 10 (min (my + 20) (vh - h - 10))⟩ ∧
    10 ≤ (bestPosition mx my w h vw vh).x ∧
    (bestPosition mx my w h vw vh).x ≤ vw - w - 10 ∧
    10 ≤ (bestPosition mx my w h vw vh).y ∧
    (bestPosition mx my w h vw vh).y ≤ vh - h - 10 := by
  have hfind : (candidatePositions mx my w h).find?
      (fun p => fitsViewport p w h vw vh) = none := by
    rw [List.find?_eq_none]
    intro p hp
    simp [hall p hp]
  have hb : bestPosition mx my w h vw vh =
      ⟨max 10 (min (mx + 20) (vw - w - 10)),
       max 10 (min (my + 20) (vh - h - 10))⟩ := by
    simp [bestPosition, hfind]
  refine ⟨hb, ?_, ?_, ?_, ?_⟩ <;> rw [hb]
  · exact le_max_left _ _
  · exact max_le (by omega) (min_le_right _ _)
  · exact le_max_left _ _
  · exact max_le (by omega) (min_le_right _ _)

/-- Witness for `c5_amended`: cursor (200, 200), popup 380x400, viewport
500x500 — all four candidates fail and the clamped first candidate lands at
(110, 90). -/
theorem c5_amended_witness :
    bestPosition 200 200 380 400 500 500 =
      ⟨max 10 (min (200 + 20) (500 - 380 - 10)),
       max 10 (min (200 + 20) (500 - 400 - 10))⟩ ∧
    10 ≤ (bestPosition 200 200 380 400 500 500).x ∧
    (bestPosition 200 200 380 400 500 500).x ≤ 500 - 380 - 10 ∧
    10 ≤ (bestPosition 200 200 380 400 500 500).y ∧
    (bestPosition 200 200 380 400 500 500).y ≤ 500 - 400 - 10 :=
  c5_amended 200 200 380 400 500 500 (by decide) (by decide) (by decide)

/-- A pointer-move handled while the popup is pinned leaves the popup state
(and in particular the rendered position) unchanged. -/
theorem handleMouseMove_pinned (isScanning : Bool) (st : PopupState)
    (hpin : st.isPinned = true) (ev : MoveEvent) (w h vw vh : Int) :
    handleMouseMove isScanning st ev w h vw vh = st := by
  cases isScanning <;> simp [handleMouseMove, hpin]

/-- Any sequence of pointer-moves over a pinned popup state is a no-op. -/
theorem foldl_moves_pinned (evs : List MoveEvent) (st : PopupState)
    (hpin : st.isPinned = true) (isScanning : Bool) (w h vw vh : Int) :
    evs.foldl (fun s e => handleMouseMove isScanning s e w h vw vh) st = st := by
  induction evs with
  | nil => rfl
  | cons e es ih =>
    rw [List.foldl_cons, handleMouseMove_pinned isScanning st hpin e w h vw vh]
    exact ih

/-- `pinPopup` always sets the pinned flag. -/
theorem pinPopup_isPinned (st : PopupState) : (pinPopup st).isPinned = true := by
  cases hp : st.popup <;> simp [pinPopup, hp]

/-- C6: after `pinPopup`, any sequence of pointer-move events (in particular
any 10 consecutive ones) leaves the popup state — hence its rendered
position — untouched; after `unpinPopup`, the next move handled while the
popup is shown and the cursor is not over it repositions the popup. -/
theorem c6_pin_unpin (st st2 : PopupState) (evs : List MoveEvent)
    (ev : MoveEvent) (w h vw vh : Int) (p : Pos)
    (hshown : st2.popup = some p) (hover : ev.targetIsPopup = false) :
    (evs.foldl (fun s e => handleMouseMove true s e w h vw vh) (pinPopup st) =
      pinPopup st) ∧
    handleMouseMove true (unpinPopup st2) ev w h vw vh =
      { unpinPopup st2 with
        popup := some (bestPosition ev.mousePosition.x ev.mousePosition.y
                        w h vw vh) } := by
  constructor
  · exact foldl_moves_pinned evs _ (pinPopup_isPinned st) true w h vw vh
  · simp [handleMouseMove, unpinPopup, hshown, hover, updatePopupPosition]

/-- Witness for `c6_pin_unpin`: 10 concrete move events against a pinned
popup, then one move after unpinning. -/
theorem c6_pin_unpin_witness :
    ((List.replicate 10 (⟨⟨7, 8⟩, false⟩ : MoveEvent)).foldl
      (fun s e => handleMouseMove true s e 380 500 1000 800)
      (pinPopup ⟨some ⟨5, 5⟩, false, none⟩) =
        pinPopup ⟨some ⟨5, 5⟩, false, none⟩) ∧
    handleMouseMove true (unpinPopup ⟨some ⟨5, 5⟩, true, some ⟨5, 5⟩⟩)
        ⟨⟨3, 4⟩, false⟩ 380 500 1000 800 =
      { unpinPopup ⟨some ⟨5, 5⟩, true, some ⟨5, 5⟩⟩ with
        popup := some (bestPosition 3 4 380 500 1000 800) } :=
  c6_pin_unpin ⟨some ⟨5, 5⟩, false, none⟩ ⟨some ⟨5, 5⟩, true, some ⟨5, 5⟩⟩
    (List.replicate 10 ⟨⟨7, 8⟩, false⟩) ⟨⟨3, 4⟩, false⟩ 380 500 1000 800
    ⟨5, 5⟩ rfl rfl

/-- C7: `extractCSSInfo` fails closed.  When its argument is `null` or any of
its internal steps — the computed-style read, selector generation,
inline-style extraction or categorization — throws, the function still
returns a value: the degraded record carrying only the element's lowercased
tag name (or `'unknown'`), class list and id, with selector `'unknown'` and
empty computed, inline and categorized mappings. -/
theorem c7_fails_closed (element : Option RawElement)
    (getComputedStyleOp : Except Unit StyleMap)
    (getSelectorOp : Except Unit String)
    (extractInlineOp : Except Unit StyleMap)
    (categorizeOp : StyleMap → Except Unit (List (String × StyleMap)))
    (hthrow : element = none ∨ getComputedStyleOp.isOk = false ∨
      getSelectorOp.isOk = false ∨ extractInlineOp.isOk = false ∨
      (∃ c, getComputedStyleOp = Except.ok c ∧ (categorizeOp c).isOk = false)) :
    extractCSSInfo element getComputedStyleOp getSelectorOp extractInlineOp
        categorizeOp = degradedResult element := by
  rcases element with _ | el
  · simp [extractCSSInfo]
  · rcases hthrow with h | h | h | h | ⟨c, hc, h⟩
    · exact absurd h (by simp)
    · cases hcs : getComputedStyleOp with
      | error e => simp [extractCSSInfo, hcs]
      | ok s => rw [hcs] at h; simp [Except.isOk, Except.toBool] at h
    · cases hcs : getComputedStyleOp with
      | error e => simp [extractCSSInfo, hcs]
      | ok s =>
        cases hsel : getSelectorOp with
        | error e => simp [extractCSSInfo, hcs, hsel]
        | ok sel => rw [hsel] at h; simp [Except.isOk, Except.toBool] at h
    · cases hcs : getComputedStyleOp with
      | error e => simp [extractCSSInfo, hcs]
      | ok s =>
        cases hsel : getSelectorOp with
        | error e => simp [extractCSSInfo, hcs, hsel]
        | ok sel =>
          cases hinl : extractInlineOp with
          | error e => simp [extractCSSInfo, hcs, hsel, hinl]
          | ok inl => rw [hinl] at h; simp [Except.isOk, Except.toBool] at h
    · cases hsel : getSelectorOp with
      | error e => simp [extractCSSInfo, hc, hsel]
      | ok sel =>
        cases hinl : extractInlineOp with
        | error e => simp [extractCSSInfo, hc, hsel, hinl]
        | ok inl =>
          cases hcat : categorizeOp c with
          | error e => simp [extractCSSInfo, hc, hsel, hinl, hcat]
          | ok cats => rw [hcat] at h; simp [Except.isOk, Except.toBool] at h

/-- Witness for `c7_fails_closed`: the computed-style read throws on a
concrete element, and the degraded record is produced. -/
theorem c7_fails_closed_witness :
    extractCSSInfo (some ⟨"DIV", "card", "main"⟩) (Except.error ())
        (Except.ok "div") (Except.ok [])
        (fun s => Except.ok (categorizeStyles s)) =
      { element := { tagName := "div", className := "card", id := "main",
                     selector := "unknown" },
        computed := [], inlineStyles := [], categorized := [] } := by
  have h := c7_fails_closed (some ⟨"DIV", "card", "main"⟩) (Except.error ())
    (Except.ok "div") (Except.ok []) (fun s => Except.ok (categorizeStyles s))
    (Or.inr (Or.inl rfl))
  exact h.trans (by decide)

/-- The declaration list `generateCSSText` renders is sorted by property
name. -/
theorem cssDeclarations_pairwise (styles : StyleMap) :
    List.Pairwise declLe (cssDeclarations styles) :=
  List.sorted_insertionSort _ _

/-- `generateCSSText` with a nonempty declaration list and a nonempty
selector produces the single CSS rule. -/
theorem generateCSSText_eq (styles : StyleMap) (sel : String)
    (hsel : sel ≠ "") (hd : cssDeclarations styles ≠ []) :
    generateCSSText styles (some sel) =
      sel ++ " " ++ ("\x7b\n" ++ String.intercalate "\n"
        ((cssDeclarations styles).map
          fun kv => "  " ++ kv.1 ++ ": " ++ kv.2 ++ ";") ++ "\n\x7d") := by
  have hst : styles ≠ [] := by
    intro h
    apply hd
    simp [cssDeclarations, h]
  have hlines : ((cssDeclarations styles).map
      fun kv => "  " ++ kv.1 ++ ": " ++ kv.2 ++ ";") ≠ [] := by
    intro hmap
    rcases hde : cssDeclarations styles with _ | ⟨a, l⟩
    · exact hd hde
    · rw [hde] at hmap
      simp at hmap
  simp [generateCSSText, hst, hlines, hsel]

/-- `generateCSSText` degenerates to the empty string when no declaration
survives its filter. -/
theorem generateCSSText_empty (styles : StyleMap) (sel : Option String)
    (hd : cssDeclarations styles = []) : generateCSSText styles sel = "" := by
  by_cases hst : styles = []
  · simp [generateCSSText, hst]
  · simp [generateCSSText, hst, hd]

/-- C8: in `all` and `computed` modes, whenever a clipboard write happens,
the written text is one CSS rule `selector { ... }` built from the computed
snapshot (or, when that is empty, the flattened categorized styles), with
one `  prop: value;` declaration per line and the surviving declarations
sorted by property name. -/
theorem c8_rule_format (d : ElementData) (ty : String) (platformCopyOk : Bool)
    (t : String) (hty : ty = "all" ∨ ty = "computed")
    (hsel : d.element.selector ≠ "")
    (hw : (copyToClipboard (some d) ty platformCopyOk).2 = some t) :
    List.Pairwise declLe
      (cssDeclarations (if d.computed = [] then objectAssignAll d.categorized
                        else d.computed)) ∧
    cssDeclarations (if d.computed = [] then objectAssignAll d.categorized
                     else d.computed) ≠ [] ∧
    t = d.element.selector ++ " " ++ ("\x7b\n" ++ String.intercalate "\n"
        ((cssDeclarations (if d.computed = [] then objectAssignAll d.categorized
                           else d.computed)).map
          fun kv => "  " ++ kv.1 ++ ": " ++ kv.2 ++ ";") ++ "\n\x7d") := by
  have hall : generateAllCSSText d d.element.selector =
      generateCSSText (if d.computed = [] then objectAssignAll d.categorized
                       else d.computed) (some d.element.selector) := by
    by_cases hc : d.computed = [] <;> simp [generateAllCSSText, hc]
  have key : isValidCopyText (generateAllCSSText d d.element.selector)
      d.element.selector = true ∧
      t = generateAllCSSText d d.element.selector := by
    rcases hty with rfl | rfl <;>
      (simp [copyToClipboard] at hw
       rcases hval : isValidCopyText (generateAllCSSText d d.element.selector)
           d.element.selector with _ | _
       · rw [hval] at hw
         simp at hw
       · rw [hval] at hw
         refine ⟨rfl, ?_⟩
         cases platformCopyOk <;> simp at hw <;> exact hw.symm)
  have hdne : cssDeclarations (if d.computed = [] then
      objectAssignAll d.categorized else d.computed) ≠ [] := by
    intro hd0
    have : generateAllCSSText d d.element.selector = "" := by
      rw [hall]
      exact generateCSSText_empty _ _ hd0
    rw [this] at key
    simp [isValidCopyText] at key
  refine ⟨cssDeclarations_pairwise _, hdne, ?_⟩
  rw [key.2, hall]
  exact generateCSSText_eq _ _ hsel hdne

/-- Witness for `c8_rule_format`: a concrete computed snapshot is copied in
`all` mode and the resulting rule is sorted and well-formed. -/
theorem c8_rule_format_witness :
    List.Pairwise declLe
      (cssDeclarations [("color", "red"), ("background", "blue")]) ∧
    cssDeclarations [("color", "red"), ("background", "blue")] ≠ [] ∧
    "div \x7b\n  background: blue;\n  color: red;\n\x7d" =
      "div" ++ " " ++ ("\x7b\n" ++ String.intercalate "\n"
        ((cssDeclarations [("color", "red"), ("background", "blue")]).map
          fun kv => "  " ++ kv.1 ++ ": " ++ kv.2 ++ ";") ++ "\n\x7d") :=
  c8_rule_format
    ⟨⟨"div", "", "", "div"⟩, [("color", "red"), ("background", "blue")], [], []⟩
    "all" true "div \x7b\n  background: blue;\n  color: red;\n\x7d"
    (Or.inl rfl) (by decide) (by decide)

/-- Resolving a concatenated handle walks the first part, then the second. -/
theorem getNode_append (t : DomTree) (p q : List Nat) :
    getNode t (p ++ q) = (getNode t p).bind (fun u => getNode u q) := by
  induction p generalizing t with
  | nil => simp [getNode]
  | cons i rest ih =>
    simp only [List.cons_append, getNode]
    cases t.children[i]? with
    | none => simp
    | some c => simpa using ih c

/-- The parent handle of a resolvable handle resolves as well. -/
theorem getNode_dropLast_isSome (body : DomTree) (path : List Nat)
    (h : (getNode body path).isSome) :
    (getNode body path.dropLast).isSome := by
  rcases List.eq_nil_or_concat path with rfl | ⟨q, j, rfl⟩
  · exact h
  · simp only [List.concat_eq_append] at h ⊢
    rw [List.dropLast_concat]
    rw [getNode_append] at h
    cases hq : getNode body q with
    | none => rw [hq] at h; simp at h
    | some u => simp

/-- The ancestor chain has at most `fuel` entries. -/
theorem upChain_length_le : ∀ (fuel : Nat) (path : List Nat),
    (upChain fuel path).length ≤ fuel
  | 0, _ => Nat.le_refl 0
  | fuel + 1, path => by
    by_cases hp : path = []
    · simp [upChain, hp]
    · simp only [upChain, if_neg hp, List.length_cons]
      exact Nat.succ_le_succ (upChain_length_le fuel path.dropLast)

/-- The ancestor-path loop of the source computes exactly the spec's
ancestor steps, outermost first. -/
theorem buildPathSteps_eq_spec (body : DomTree) :
    ∀ (fuel : Nat) (path : List Nat), (getNode body path).isSome →
    buildPathSteps body fuel path =
      ((upChain fuel path).map (specStep body)).reverse
  | 0, _, _ => rfl
  | fuel + 1, path, h => by
    by_cases hp : path = []
    · simp [buildPathSteps, upChain, hp]
    · obtain ⟨current, hcur⟩ := Option.isSome_iff_exists.mp h
      have ih := buildPathSteps_eq_spec body fuel path.dropLast
        (getNode_dropLast_isSome body path h)
      simp only [buildPathSteps, upChain, if_neg hp, hcur, List.map_cons,
        List.reverse_cons, ih]
      congr 1
      simp only [specStep, hcur]
      cases hpar : getNode body path.dropLast with
      | none => simp
      | some parent =>
        by_cases hc : 2 ≤ parent.children.length ∧ parent.children.length ≤ 10
        · rw [if_pos hc,
            if_pos (show (1 < parent.children.length &&
                parent.children.length ≤ 10) = true by
              simp only [Bool.and_eq_true, decide_eq_true_eq]
              omega)]
        · rw [if_neg hc,
            if_neg (show ¬(1 < parent.children.length &&
                parent.children.length ≤ 10) = true by
              simp only [Bool.and_eq_true, decide_eq_true_eq]
              omega)]

/-- An empty `className` yields no usable classes (the single empty token is
filtered out). -/
theorem usableClasses_className_empty (el : DomTree)
    (hcn : el.className = "") : usableClasses el = [] := by
  unfold usableClasses classTokens
  rw [hcn]
  decide

/-- The selector generator takes the ancestor-path fallback whenever the
element has no id and its class selector is unusable (no usable classes) or
rejected (more than 5 matches). -/
theorem generateOptimizedSelector_fallback (body : DomTree) (path : List Nat)
    (el : DomTree) (hget : getNode body path = some el) (hne : path ≠ [])
    (hid : el.id = "")
    (hcls : usableClasses el = [] ∨ 5 < countMatches (usableClasses el) body) :
    generateOptimizedSelector body (some path) = pathFallback body path el := by
  have hval : (getNode body path).isSome := by rw [hget]; rfl
  have hsteps := buildPathSteps_eq_spec body 3 path hval
  rcases hcls with hcl | hcount
  · by_cases hcn : el.className = ""
    · simp [generateOptimizedSelector, hne, hget, hid, hcn, pathFallback,
        hsteps]
    · simp [generateOptimizedSelector, hne, hget, hid, hcn, hcl, pathFallback,
        hsteps]
  · by_cases hcn : el.className = ""
    · simp [generateOptimizedSelector, hne, hget, hid, hcn, pathFallback,
        hsteps]
    · by_cases hcl : usableClasses el = []
      · simp [generateOptimizedSelector, hne, hget, hid, hcn, hcl,
          pathFallback, hsteps]
      · simp [generateOptimizedSelector, hne, hget, hid, hcn, hcl,
          Nat.not_le.mpr hcount, pathFallback, hsteps]

/-- C2: the selector generator follows the specified priority order.  For the
body element (and a `null` argument) it returns `'body'`; otherwise, for an
element with an id it returns `'#id'`; otherwise, when up to 3 usable
(non-internal) classes exist and the compound class selector matches at most
5 elements document-wide, it returns that compound selector; otherwise it
returns the path of at most 3 ancestor steps — lowercase tag names, each
suffixed with `:nth-child(n)` exactly when the parent has between 2 and 10
children, joined with `' > '` — falling back to the lowercase tag name or
the literal `'unknown'`. -/
theorem c2_selector_priority (body : DomTree) (path : List Nat) (el : DomTree)
    (hget : getNode body path = some el) (hne : path ≠ []) :
    generateOptimizedSelector body none = "body" ∧
    generateOptimizedSelector body (some []) = "body" ∧
    (usableClasses el).length ≤ 3 ∧
    ((upChain 3 path).map (specStep body)).length ≤ 3 ∧
    generateOptimizedSelector body (some path) =
      (if el.id ≠ "" then "#" ++ el.id
       else if usableClasses el ≠ [] ∧
           countMatches (usableClasses el) body ≤ 5 then
         "." ++ String.intercalate "." (usableClasses el)
       else pathFallback body path el) := by
  refine ⟨rfl, rfl, List.length_take_le _ _, ?_, ?_⟩
  · simpa using upChain_length_le 3 path
  · by_cases hid : el.id = ""
    · by_cases hcls : usableClasses el ≠ [] ∧
          countMatches (usableClasses el) body ≤ 5
      · have hcn : el.className ≠ "" := fun hcn =>
          hcls.1 (usableClasses_className_empty el hcn)
        simp [generateOptimizedSelector, hne, hget, hid, hcn, hcls.1, hcls.2,
          hcls]
      · have hfb := generateOptimizedSelector_fallback body path el hget hne
          hid (by
            rcases not_and_or.mp hcls with h | h
            · exact Or.inl (not_not.mp h)
            · exact Or.inr (Nat.not_le.mp h))
        rw [hfb, if_neg (by simpa using hid), if_neg hcls]
    · simp [generateOptimizedSelector, hne, hget, hid]

/-- Witness for `c2_selector_priority` at the `span` of the sample document:
no id and no classes, so the ancestor-path branch fires. -/
theorem c2_selector_priority_witness :
    generateOptimizedSelector sampleBody none = "body" ∧
    generateOptimizedSelector sampleBody (some []) = "body" ∧
    (usableClasses (DomTree.node "SPAN" "" "" [])).length ≤ 3 ∧
    ((upChain 3 [0, 0]).map (specStep sampleBody)).length ≤ 3 ∧
    generateOptimizedSelector sampleBody (some [0, 0]) =
      (if (DomTree.node "SPAN" "" "" []).id ≠ "" then
         "#" ++ (DomTree.node "SPAN" "" "" []).id
       else if usableClasses (DomTree.node "SPAN" "" "" []) ≠ [] ∧
           countMatches (usableClasses (DomTree.node "SPAN" "" "" []))
             sampleBody ≤ 5 then
         "." ++ String.intercalate "."
           (usableClasses (DomTree.node "SPAN" "" "" []))
       else pathFallback sampleBody [0, 0] (DomTree.node "SPAN" "" "" [])) :=
  c2_selector_priority sampleBody [0, 0] (DomTree.node "SPAN" "" "" [])
    rfl (by decide)
